import Mathlib

/-!
Shallow embedding of the order-lifecycle service (backend/app) and proofs
about its event-propagation pipeline.

Conventions of the embedding:
* Timestamps are natural numbers (an abstract monotone clock); a call of
  datetime.now(UTC) inside one modelled operation is a parameter of the model.
* Randomness (uuid4, secrets.token_bytes) is passed in as explicit parameters:
  each modelled operation receives the values the generators would return.
* Python exceptions are modelled with Except / Option; a function that the
  source wraps in try/except is a total Lean function whose error branch is
  the value the except-clause produces.
* Logging and Prometheus metric updates are either omitted or recorded as
  explicit effect-trace entries when a claim speaks about them.
-/

/-! ## Configuration (backend/app/core/config.py)
Only the fields the modelled components read, with their defaults. -/

structure Settings where
  USER_CACHE_TTL : Nat
  PROCESSED_EVENT_TTL : Nat
  ORDER_CONFIRM_DELAY : Nat
  ORDER_SHIP_DELAY : Nat
  OUTBOX_BATCH_SIZE : Nat
  OUTBOX_MAX_RETRY_ATTEMPTS : Nat
  OUTBOX_ERROR_MESSAGE_MAX_LENGTH : Nat
  KAFKA_TOPIC_ORDER_CREATED : String
  KAFKA_TOPIC_ORDER_CONFIRMED : String
  KAFKA_TOPIC_ORDER_SHIPPED : String
  KAFKA_TOPIC_ORDER_CANCELLED : String
deriving DecidableEq

/-- Default values from config.py (class Settings). -/
def settings : Settings :=
  { USER_CACHE_TTL := 86400
    PROCESSED_EVENT_TTL := 604800
    ORDER_CONFIRM_DELAY := 30
    ORDER_SHIP_DELAY := 120
    OUTBOX_BATCH_SIZE := 100
    OUTBOX_MAX_RETRY_ATTEMPTS := 5
    OUTBOX_ERROR_MESSAGE_MAX_LENGTH := 500
    KAFKA_TOPIC_ORDER_CREATED := "order.created"
    KAFKA_TOPIC_ORDER_CONFIRMED := "order.confirmed"
    KAFKA_TOPIC_ORDER_SHIPPED := "order.shipped"
    KAFKA_TOPIC_ORDER_CANCELLED := "order.cancelled" }

/-! ## Trace context (backend/app/core/tracing.py) -/

/-- The dataclass TraceContext of tracing.py. -/
structure TraceContext where
  trace_id : String
  span_id : String
  parent_span_id : Option String := none
  sampled : Bool := true
  version : String := "00"
deriving DecidableEq

/-- TraceContext.to_traceparent_header. -/
def TraceContext.to_traceparent_header (c : TraceContext) : String :=
  let trace_flags := if c.sampled then "01" else "00"
  c.version ++ "-" ++ c.trace_id ++ "-" ++ c.span_id ++ "-" ++ trace_flags

/-! ### Python int(s, 16)
from_traceparent_header validates the hex fields with int(field, 16) inside a
try/except ValueError. Python's int with an explicit base accepts optional
surrounding whitespace, an optional sign, an optional 0x / 0X prefix (possibly
followed by one underscore), and hex digits separated by single underscores.
The model below reproduces that grammar for ASCII input (Python additionally
accepts some exotic Unicode digits and spaces, which no claim exercises). -/

/-- Whitespace characters Python's int() strips from both ends. -/
def isPySpace (c : Char) : Bool :=
  c = ' ' || c = '\t' || c = '\n' || c = '\x0d' || c = '\x0b' || c = '\x0c'

/-- Hexadecimal digit test for int(s, 16). -/
def isHexDig (c : Char) : Bool :=
  ('0' ≤ c && c ≤ '9') || ('a' ≤ c && c ≤ 'f') || ('A' ≤ c && c ≤ 'F')

/-- Value of a hexadecimal digit. -/
def hexVal (c : Char) : Nat :=
  if '0' ≤ c && c ≤ '9' then c.toNat - '0'.toNat
  else if 'a' ≤ c && c ≤ 'f' then c.toNat - 'a'.toNat + 10
  else c.toNat - 'A'.toNat + 10

/-- Digits after the first one: single underscores may separate digits but may
not trail or repeat. -/
def hexDigitsCore : Nat → List Char → Option Nat
  | acc, [] => some acc
  | _, ['_'] => none
  | acc, '_' :: c :: rest =>
      if isHexDig c then hexDigitsCore (16 * acc + hexVal c) rest else none
  | acc, c :: rest =>
      if isHexDig c then hexDigitsCore (16 * acc + hexVal c) rest else none

/-- Nonempty digit body: must start with a hex digit. -/
def parseHexBody : List Char → Option Nat
  | [] => none
  | c :: rest => if isHexDig c then hexDigitsCore (hexVal c) rest else none

/-- Handles the optional 0x / 0X prefix (optionally followed by one
underscore). -/
def parseAfterSign (l : List Char) : Option Nat :=
  match l with
  | '0' :: x :: rest =>
      if x = 'x' || x = 'X' then
        match rest with
        | '_' :: rest2 => parseHexBody rest2
        | _ => parseHexBody rest
      else parseHexBody l
  | _ => parseHexBody l

/-- Model of Python int(s, 16): some value on success, none where Python
raises ValueError. -/
def pyIntHex (s : String) : Option Int :=
  let l := ((s.data.dropWhile isPySpace).reverse.dropWhile isPySpace).reverse
  match l with
  | '+' :: rest => (parseAfterSign rest).map (fun n => (n : Int))
  | '-' :: rest => (parseAfterSign rest).map (fun n => -(n : Int))
  | _ => (parseAfterSign l).map (fun n => (n : Int))

/-- Model of Python str.split("-"): splitting an n-character string on every
occurrence of the dash, keeping empty fields. -/
def splitOnDash : List Char → List (List Char)
  | [] => [[]]
  | c :: rest =>
      let r := splitOnDash rest
      if c = '-' then [] :: r
      else
        match r with
        | [] => [[c]]
        | g :: gs => (c :: g) :: gs

/-- TraceContext.from_traceparent_header. The source generates a fresh
span id for the new context with generate_span_id(); the random value it
would return is the parameter newSpanId. Every exception path of the source
(ValueError from int) is a none branch of pyIntHex, so the model is total:
malformed input yields none, never an error. -/
def TraceContext.from_traceparent_header (header_value : String)
    (newSpanId : String) : Option TraceContext :=
  match (splitOnDash header_value.data).map String.mk with
  | [version, trace_id, parent_span_id_from_header, trace_flags] =>
      if version ≠ "00" then none
      else if trace_id.length ≠ 32 ∨ trace_id = "00000000000000000000000000000000" then
        none
      else if parent_span_id_from_header.length ≠ 16 ∨
          parent_span_id_from_header = "0000000000000000" then
        none
      else
        match pyIntHex trace_id, pyIntHex parent_span_id_from_header,
            pyIntHex trace_flags with
        | some _, some _, some f =>
            some { version := version
                   trace_id := trace_id
                   span_id := newSpanId
                   parent_span_id := some parent_span_id_from_header
                   sampled := f.emod 2 = 1 }
        | _, _, _ => none
  | _ => none

/-- The three module-level ContextVars of tracing.py (trace.id, span.id,
parent_span_id); a value none models both an unset variable and an explicit
None. -/
structure TracingState where
  trace_id_var : Option String
  span_id_var : Option String
  parent_span_id_var : Option String
deriving DecidableEq

/-- Initial state: every ContextVar has default None. -/
def TracingState.empty : TracingState :=
  { trace_id_var := none, span_id_var := none, parent_span_id_var := none }

/-- Python truthiness for an optional string (None and the empty string are
falsy). -/
def optStrTruthy : Option String → Bool
  | none => false
  | some s => s ≠ ""

/-- set_trace_context: stores trace_id and span_id unconditionally, but the
parent is stored only behind the guard if context.parent_span_id. -/
def set_trace_context (context : TraceContext) (s : TracingState) : TracingState :=
  { trace_id_var := some context.trace_id
    span_id_var := some context.span_id
    parent_span_id_var :=
      if optStrTruthy context.parent_span_id then context.parent_span_id
      else s.parent_span_id_var }

/-- get_trace_context: none when trace.id is falsy; otherwise rebuilds a
context from the three variables, minting a fresh span id (the parameter
genSpan stands for the generate_span_id() result) when span.id is falsy. -/
def get_trace_context (s : TracingState) (genSpan : String) : Option TraceContext :=
  match s.trace_id_var with
  | none => none
  | some trace_id =>
      if trace_id = "" then none
      else
        some { trace_id := trace_id
               span_id :=
                 match s.span_id_var with
                 | some sp => if sp = "" then genSpan else sp
                 | none => genSpan
               parent_span_id := s.parent_span_id_var }

/-- clear_trace_context: resets all three variables to None. -/
def clear_trace_context (_s : TracingState) : TracingState :=
  TracingState.empty

/-! ## Data model (backend/app/models.py, backend/app/events)
Decimal amounts are modelled as integers (no claim depends on fractional
arithmetic); datetimes are Nat. -/

/-- Typed event payloads (backend/app/events/order_events.py and
user_events.py), restricted to the variants the modelled components build.
An item of an order.created payload is (product_id, quantity, price). -/
inductive EventData
  | orderCreated (order_id user_id status : String) (total_amount : Int)
      (currency : String) (shipping_address : Option String)
      (items : List (String × Nat × Int)) (created_at : Nat)
  | orderConfirmed (order_id user_id status payment_id : String)
      (total_amount : Int) (currency : String) (confirmed_at : Nat)
  | orderShipped (order_id user_id status tracking_number carrier : String)
      (estimated_delivery shipped_at : Nat)
  | orderCancelled (order_id user_id status reason : String) (cancelled_at : Nat)
  | userDeleted (user_id : String) (deleted_at : Nat) (reason : Option String)
deriving DecidableEq

/-- The standard event envelope dict built by OutboxService.create_event and
KafkaProducerClient.publish_event (spec section 6.2). -/
structure Envelope where
  event_id : String
  event_type : String
  timestamp : Nat
  version : String
  data : EventData
deriving DecidableEq

/-- The ORM class OutboxEvent of models.py. It declares exactly these
fields; the trace_id, span_id and parent_span_id columns that migration
a1b2c3d4e5f6 added to the outbox_events TABLE have no counterpart on the
class - models.py was never updated for them. -/
structure OutboxEvent where
  id : String
  event_id : String
  event_type : String
  topic : String
  partition_key : Option String
  payload : Envelope
  published : Bool
  published_at : Option Nat
  attempts : Nat
  last_error : Option String
  created_at : Nat
  updated_at : Nat
deriving DecidableEq

/-- The attribute names class OutboxEvent declares, which are also the only
columns SQLAlchemy maps for it. -/
def OutboxEvent.mapped_fields : List String :=
  ["id", "event_id", "event_type", "topic", "partition_key", "payload",
   "published", "published_at", "attempts", "last_error", "created_at",
   "updated_at"]

/-- Python attribute access on an OutboxEvent instance: a name the class
does not declare raises AttributeError. -/
def OutboxEvent.getattr (name : String) : Except String Unit :=
  if OutboxEvent.mapped_fields.contains name then Except.ok ()
  else Except.error ("AttributeError: " ++ name)

/-- A row of the outbox_events table as migrated: the mapped columns plus
the three nullable trace columns of migration a1b2c3d4e5f6, which no ORM
field maps. -/
structure OutboxTableRow where
  row : OutboxEvent
  trace_id : Option String
  span_id : Option String
  parent_span_id : Option String
deriving DecidableEq

/-- Committing an inserted OutboxEvent instance: the INSERT carries only the
mapped columns, so the unmapped trace columns keep their NULL default. -/
def persistOutbox (e : OutboxEvent) : OutboxTableRow :=
  { row := e, trace_id := none, span_id := none, parent_span_id := none }

/-- Row of the orders table (class Order in models.py). -/
structure OrderRow where
  id : String
  user_id : String
  total_amount : Int
  currency : String
  shipping_address : Option String
  status : String
  tracking_number : Option String
  carrier : Option String
  payment_id : Option String
  created_at : Nat
  updated_at : Nat
  confirmed_at : Option Nat
  shipped_at : Option Nat
deriving DecidableEq

/-! ## Outbox service (backend/app/services/outbox_service.py) -/

/-- Keyword arguments create_event passes to the OutboxEvent constructor. -/
def create_event_constructor_kwargs : List String :=
  ["event_id", "event_type", "topic", "partition_key", "payload",
   "trace_id", "span_id", "parent_span_id"]

/-- SQLModel constructor semantics for a table model: keyword arguments that
name no declared field are silently ignored (unlike a plain Python call,
which raises TypeError - compare publish_event_params in the consumer
section). This returns the dropped names. -/
def sqlmodel_dropped_kwargs (fields kwargs : List String) : List String :=
  kwargs.filter (fun k => !fields.contains k)

/-- OutboxService.create_event. Parameters standing for the source's ambient
inputs: s is the ContextVar state read by get_trace_context, genSpan the value
generate_span_id() would return inside it, uuid the str(uuid4()) result minted
as event_id, now the datetime.now(UTC) reading, and rowId the uuid4 default of
the primary-key column. The function builds the envelope and captures the
current trace context, but the trace_id= / span_id= / parent_span_id= keyword
arguments it passes to the OutboxEvent constructor name no declared field of
the class and SQLModel silently drops them (sqlmodel_dropped_kwargs), so the
instance it adds to the session - without committing - carries only the
mapped fields, and the committed table row's trace columns stay NULL
(persistOutbox). -/
def OutboxService.create_event (s : TracingState) (genSpan : String)
    (uuid : String) (now : Nat) (event_type topic : String)
    (event_data : EventData) (partition_key : Option String)
    (rowId : String) : OutboxEvent :=
  let event_id := uuid
  let _trace_context := get_trace_context s genSpan
  let payload : Envelope :=
    { event_id := event_id
      event_type := event_type
      timestamp := now
      version := "1.0"
      data := event_data }
  { id := rowId
    event_id := event_id
    event_type := event_type
    topic := topic
    partition_key := partition_key
    payload := payload
    published := false
    published_at := none
    attempts := 0
    last_error := none
    created_at := now
    updated_at := now }

/-! ## Outbox relay worker (backend/app/workers/outbox_worker.py)
publish_pending_events runs its select and then iterates the selected rows.
The first statement of each iteration's trace-reconstruction block is the
line if event.trace_id: (line 130), which sits outside the per-row try of
line 143, and class OutboxEvent declares no trace_id attribute: the access
raises AttributeError on the first selected row, nothing inside the function
catches it, and the call aborts before any bus publish, any published=true
update and any failure bookkeeping (attempts increment, last_error,
critical max-retries log). All of that sits below the crashing access, is
dead code as the source stands, and is therefore not modelled. With an empty
selection the loop body never runs and the function returns count 0. -/

/-- The select statement the worker builds: filter published == False, order
by created_at ascending, limit batch_size, with_for_update(skip_locked=True). -/
structure OutboxQuery where
  onlyUnpublished : Bool
  orderByCreatedAsc : Bool
  limit : Nat
  forUpdateSkipLocked : Bool
deriving DecidableEq

/-- The exact query constructed in publish_pending_events. -/
def pendingEventsQuery (batch_size : Nat) : OutboxQuery :=
  { onlyUnpublished := true
    orderByCreatedAsc := true
    limit := batch_size
    forUpdateSkipLocked := true }

/-- Ordering used by ORDER BY created_at ASC. -/
def createdAtLe (a b : OutboxEvent) : Prop :=
  a.created_at ≤ b.created_at

instance : DecidableRel createdAtLe := fun a b => Nat.decLe a.created_at b.created_at

instance : IsTotal OutboxEvent createdAtLe :=
  ⟨fun a b => Nat.le_total a.created_at b.created_at⟩

instance : IsTrans OutboxEvent createdAtLe :=
  ⟨fun _ _ _ => Nat.le_trans⟩

/-- Sequential-execution semantics of the select (WHERE, then ORDER BY, then
LIMIT). Row locks are vacuous in a single-worker model; the query record above
still carries the FOR UPDATE SKIP LOCKED flag the source sets. -/
def runOutboxQuery (q : OutboxQuery) (db : List OutboxEvent) : List OutboxEvent :=
  let rows := if q.onlyUnpublished then db.filter (fun e => !e.published) else db
  let rows := if q.orderByCreatedAsc then rows.insertionSort createdAtLe else rows
  rows.take q.limit

/-- create_trace_context of tracing.py: keep a truthy trace_id, else use the
freshly generated one; always mint a new span id. genTraceId and genSpanId are
the values the generators would return. -/
def create_trace_context (trace_id : Option String) (parent_span_id : Option String)
    (sampled : Bool) (genTraceId genSpanId : String) : TraceContext :=
  { trace_id :=
      match trace_id with
      | some t => if t = "" then genTraceId else t
      | none => genTraceId
    span_id := genSpanId
    parent_span_id := parent_span_id
    sampled := sampled }

/-- publish_pending_events: run the query; a nonempty selection crashes with
AttributeError during its first iteration, before any other effect; an empty
selection returns count 0 with the table unchanged. The ok branch of the
attribute access is unreachable (OutboxEvent.mapped_fields holds no trace_id
entry) and is left trivial; the per-row publish, success commit and failure
bookkeeping of the source (lines 143-237) sit below the crashing access and
are dead code. -/
def publish_pending_events (batch_size : Nat) (db : List OutboxEvent) :
    Except String (List OutboxEvent × Nat) :=
  match runOutboxQuery (pendingEventsQuery batch_size) db with
  | [] => Except.ok (db, 0)
  | _ :: _ =>
      match OutboxEvent.getattr "trace_id" with
      | Except.error msg => Except.error msg
      | Except.ok _ => Except.ok (db, 0)

/-! ## Event consumer (backend/app/consumers/user_consumer.py)
Durable effects of message handling, in program order. Setting and clearing
the trace ContextVars and structlog bindings are process-local and appear in
the TracingState model, not in this effect trace. -/

inductive CEffect
  | redisExists (key : String)
  | metricDuplicate (topic event_type : String)
  | commitOffset
  | redisSet (key value : String) (ttl : Nat)
  | redisSetJson (key : String) (ttl : Nat)
  | redisDelete (key : String)
  | busPublish (topic event_type key : String)
  | dbCommitOrderCancelled (order_id : String) (updated_at : Nat)
  | dbRollback
  | metricConsumed (topic event_type status : String)
deriving DecidableEq

/-- handle_message. The dispatched handler (handle_user_created / updated /
deleted, or the unknown-type warning) is abstracted by the effects it
performed (handlerEffects) and whether it raised (handlerErr: the exception
message, none when it returned normally); on a raise, handlerEffects are the
effects already performed before the raise. alreadyProcessed is the
redis_client.exists result for the idempotency key. The mark-processed set
and the offset commit are assumed not to raise (claims C1/C3 do not exercise
their failure). -/
def handle_message (event_id event_type topic : String) (alreadyProcessed : Bool)
    (handlerEffects : List CEffect) (handlerErr : Option String) : List CEffect :=
  let cache_key := "processed_event:" ++ event_id
  if alreadyProcessed then
    [CEffect.redisExists cache_key, CEffect.metricDuplicate topic event_type,
     CEffect.commitOffset]
  else
    [CEffect.redisExists cache_key] ++ handlerEffects ++
      (match handlerErr with
       | none =>
           [CEffect.redisSet cache_key "1" settings.PROCESSED_EVENT_TTL,
            CEffect.commitOffset,
            CEffect.metricConsumed topic event_type "success"]
       | some _ => [CEffect.metricConsumed topic event_type "failure"])

/-- An effect commits the bus offset. -/
def isCommitOffset : CEffect → Bool
  | CEffect.commitOffset => true
  | _ => false

/-- An effect writes the processed_event idempotency marker of event_id. -/
def marksProcessed (event_id : String) : CEffect → Bool
  | CEffect.redisSet k _ _ => k = "processed_event:" ++ event_id
  | _ => false

/-! ### handle_user_deleted and the publish_event call signature
KafkaProducerClient.publish_event (backend/app/core/kafka.py) accepts exactly
the keyword parameters topic, event_type, data and key. handle_user_deleted
calls it with an additional trace_context keyword; Python rejects an
unexpected keyword argument with a TypeError when the call is bound, so the
call raises on every order (the tenacity retry wrapper re-raises after its
attempts are exhausted) and the per-order except block rolls the transaction
back. The binding check is modelled explicitly so that the dead success
branch stays visible next to the source. -/

/-- Keyword parameters of KafkaProducerClient.publish_event (self excluded). -/
def publish_event_params : List String :=
  ["topic", "event_type", "data", "key"]

/-- Keyword arguments handle_user_deleted passes to publish_event. -/
def handle_user_deleted_publish_kwargs : List String :=
  ["topic", "event_type", "data", "key", "trace_context"]

/-- Python call binding: every keyword argument must name a parameter,
otherwise the call raises TypeError (unexpected keyword argument). -/
def python_call_kwargs_ok (params kwargs : List String) : Bool :=
  kwargs.all (fun k => params.contains k)

/-- Selection predicate of handle_user_deleted: this user's orders in status
pending or confirmed. -/
def cancellable (user_id : String) (o : OrderRow) : Bool :=
  o.user_id = user_id && (o.status = "pending" || o.status = "confirmed")

/-- Effects of one iteration of the cancellation loop. If the publish call
binds (it never does in the source as written), the order.cancelled event is
produced to the bus keyed by user_id and then the separate per-order
transaction committing status=cancelled follows; on the raise the except
block rolls back and the loop continues. -/
def cancelOrderEffects (user_id : String) (now : Nat) (order : OrderRow) :
    List CEffect :=
  if python_call_kwargs_ok publish_event_params handle_user_deleted_publish_kwargs then
    [CEffect.busPublish settings.KAFKA_TOPIC_ORDER_CANCELLED "order.cancelled" user_id,
     CEffect.dbCommitOrderCancelled order.id now]
  else
    [CEffect.dbRollback]

/-- handle_user_deleted: select the user's pending/confirmed orders, run the
cancellation loop (each iteration publishing first, then committing its own
DB update - or rolling back on the raise), then delete the user cache entry.
Returns the final orders table and the effect trace. -/
def handle_user_deleted (db : List OrderRow) (user_id : String) (now : Nat) :
    List OrderRow × List CEffect :=
  let orders := db.filter (cancellable user_id)
  let db' := db.map (fun o =>
    if cancellable user_id o &&
        python_call_kwargs_ok publish_event_params handle_user_deleted_publish_kwargs
    then { o with status := "cancelled", updated_at := now }
    else o)
  (db', orders.flatMap (cancelOrderEffects user_id now) ++
        [CEffect.redisDelete ("user:" ++ user_id)])

/-! ## Order lifecycle processor (backend/app/processors/order_processor.py)
Each selected order is handled in its own transaction: the order update and
the outbox insert commit atomically, and a per-order exception rolls the
order back to its prior state (parameter txOk, keyed by order id, tells
whether that transaction committed). The trace-context reconstruction and the
outbox insert touch only outbox rows and ContextVars, never order rows, and
are omitted from this orders-table model; payHex / trkHex are the uuid4 hex
strings the generators would return for payment_id / tracking_number. -/

/-- Selection of process_pending_orders: status pending, created before
now - ORDER_CONFIRM_DELAY. -/
def pendingEligible (now : Nat) (o : OrderRow) : Bool :=
  o.status = "pending" && o.created_at < now - settings.ORDER_CONFIRM_DELAY

/-- Order update of process_pending_orders. -/
def confirmOrder (now : Nat) (payHex : String) (o : OrderRow) : OrderRow :=
  { o with
    status := "confirmed"
    confirmed_at := some now
    payment_id := some ("pay_" ++ payHex)
    updated_at := now }

/-- process_pending_orders, as its net transform of the orders table. -/
def process_pending_orders (db : List OrderRow) (now : Nat)
    (txOk : String → Bool) (payHex : String → String) : List OrderRow :=
  db.map (fun o =>
    if pendingEligible now o && txOk o.id then confirmOrder now (payHex o.id) o
    else o)

/-- Selection of process_confirmed_orders: status confirmed, confirmed before
now - ORDER_SHIP_DELAY (a NULL confirmed_at compares false in SQL). -/
def confirmedEligible (now : Nat) (o : OrderRow) : Bool :=
  o.status = "confirmed" &&
    (match o.confirmed_at with
     | some t => t < now - settings.ORDER_SHIP_DELAY
     | none => false)

/-- Order update of process_confirmed_orders. -/
def shipOrder (now : Nat) (trkHex : String) (o : OrderRow) : OrderRow :=
  { o with
    status := "shipped"
    shipped_at := some now
    tracking_number := some ("TRK" ++ trkHex)
    carrier := some "FedEx"
    updated_at := now }

/-- process_confirmed_orders, as its net transform of the orders table. -/
def process_confirmed_orders (db : List OrderRow) (now : Nat)
    (txOk : String → Bool) (trkHex : String → String) : List OrderRow :=
  db.map (fun o =>
    if confirmedEligible now o && txOk o.id then shipOrder now (trkHex o.id) o
    else o)

/-! ## User validation and order creation
(backend/app/services/user_service.py, backend/app/api/routes/order.py) -/

/-- Cached user record (class UserData in models.py). -/
structure UserData where
  user_id : String
  email : String
  name : Option String
  status : String
deriving DecidableEq

/-- Outcome of an environment call that can raise: ok with a found-or-missing
record, or error with the exception message. -/
abbrev EnvResult (α : Type) : Type := Except String α

/-- UserService._fetch_from_user_service: returns the directory record, and
swallows every client exception into None (the not-found value). -/
def fetch_from_user_service (api : EnvResult (Option UserData)) : Option UserData :=
  match api with
  | Except.error _ => none
  | Except.ok r => r

/-- UserService.validate_user. cache is the redis get_json outcome for
user:{user_id} combined with the UserData(**cached) parse (an error covers a
redis failure, invalid JSON, and a parse failure - all raise into the
enclosing try); api is the directory-call outcome; cacheWrite is the
set_json outcome on the fill path, whose failure the source swallows. The
outer catch-all turns every raised error into None, the same value as
user-not-found. -/
def validate_user (cache : EnvResult (Option UserData))
    (api : EnvResult (Option UserData)) (cacheWrite : EnvResult Unit) :
    Option UserData :=
  match cache with
  | Except.error _ => none
  | Except.ok (some user_data) =>
      if user_data.status ≠ "active" then none else some user_data
  | Except.ok none =>
      match fetch_from_user_service api with
      | none => none
      | some user_data =>
          if user_data.status ≠ "active" then none
          else
            match cacheWrite with
            | Except.ok _ => some user_data
            | Except.error _ => some user_data

/-- HTTP status of POST /api/v1/orders as determined by user validation:
404 when validate_user returns None, otherwise the 200 created-order path.
(Failures after validation - DB errors on the insert/commit - surface as
FastAPI 500 and are outside this model.) -/
def create_order_status_code (cache : EnvResult (Option UserData))
    (api : EnvResult (Option UserData)) (cacheWrite : EnvResult Unit) : Nat :=
  match validate_user cache api cacheWrite with
  | none => 404
  | some _ => 200

/-! ## Rejection predicate of the traceparent parser
Characterizes exactly the inputs from_traceparent_header maps to none: not
four dash-separated fields, version field different from 00, trace_id not 32
characters or the all-zero string, span_id field not 16 characters or the
all-zero string, or any of the three fields rejected by Python int(field, 16).
The flags field has no length requirement in the source. -/
def traceparent_rejected (header_value : String) : Bool :=
  match (splitOnDash header_value.data).map String.mk with
  | [version, trace_id, parent_span_id_from_header, trace_flags] =>
      version != "00" || trace_id.length != 32 ||
        trace_id == "00000000000000000000000000000000" ||
        parent_span_id_from_header.length != 16 ||
        parent_span_id_from_header == "0000000000000000" ||
        (pyIntHex trace_id).isNone || (pyIntHex parent_span_id_from_header).isNone ||
        (pyIntHex trace_flags).isNone
  | _ => true

/-! ## Concrete inputs used by witnesses and counterexamples -/

/-- A pending order of user_abc (end-to-end scenario 1 of the spec). -/
def wOrderPending : OrderRow :=
  { id := "ord_1", user_id := "user_abc", total_amount := 10, currency := "USD",
    shipping_address := none, status := "pending", tracking_number := none,
    carrier := none, payment_id := none, created_at := 0, updated_at := 0,
    confirmed_at := none, shipped_at := none }

/-- A payload used by concrete outbox rows. -/
def wEnvelope : Envelope :=
  { event_id := "evt_1", event_type := "order.created", timestamp := 2,
    version := "1.0", data := EventData.userDeleted "user_abc" 2 none }

/-- An unpublished outbox row. -/
def wRow1 : OutboxEvent :=
  { id := "row_1", event_id := "evt_1", event_type := "order.created",
    topic := "order.created", partition_key := some "user_abc",
    payload := wEnvelope, published := false, published_at := none,
    attempts := 0, last_error := none,
    created_at := 3, updated_at := 3 }

/-- An older unpublished row, already at 4 failed attempts. -/
def wRow2 : OutboxEvent :=
  { wRow1 with
    id := "row_2"
    event_id := "evt_2"
    created_at := 1
    attempts := 4 }

/-- An already published row, invisible to the relay query. -/
def wRow3 : OutboxEvent :=
  { wRow1 with
    id := "row_3"
    event_id := "evt_3"
    created_at := 0
    published := true
    published_at := some 1 }

/-- A ContextVar state with a current trace context set, as after a
set_trace_context call during an HTTP request. -/
def wTracingState : TracingState :=
  { trace_id_var := some "4bf92f3577b34da6a3ce929d0e0e4736"
    span_id_var := some "00f067aa0ba902b7"
    parent_span_id_var := some "00f067aa0ba902b8" }

/-- An active directory user for the order-creation claims. -/
def wActiveUser : UserData :=
  { user_id := "user_abc", email := "a@example.com", name := some "A",
    status := "active" }

/-! ## Theorems -/

/-- Forall₂ between a list and its image under a pointwise transform. -/
theorem forall₂_map_self {α : Type} (f : α → α) (P : α → α → Prop)
    (l : List α) (h : ∀ a ∈ l, P a (f a)) : List.Forall₂ P l (l.map f) := by
  induction l with
  | nil => simp
  | cons a t ih =>
      exact List.Forall₂.cons (h a (by simp)) (ih fun x hx => h x (by simp [hx]))

/-- C2 (code evaluation at the failing input): even with a current trace
context set, the three trace-id keyword arguments create_event passes to the
OutboxEvent constructor name no declared field of the class, SQLModel drops
them, and the committed table row's trace columns are NULL - the persistence
the claim (and the spec) describe never happens. -/
theorem C2_trace_kwargs_dropped :
    sqlmodel_dropped_kwargs OutboxEvent.mapped_fields
        create_event_constructor_kwargs =
      ["trace_id", "span_id", "parent_span_id"] ∧
    (get_trace_context wTracingState "aaaaaaaaaaaaaaaa").isSome = true ∧
    (persistOutbox (OutboxService.create_event wTracingState "aaaaaaaaaaaaaaaa"
        "evt_9" 7 "order.created" "order.created"
        (EventData.userDeleted "user_abc" 7 none) (some "user_abc")
        "row_9")).trace_id = none ∧
    (persistOutbox (OutboxService.create_event wTracingState "aaaaaaaaaaaaaaaa"
        "evt_9" 7 "order.created" "order.created"
        (EventData.userDeleted "user_abc" 7 none) (some "user_abc")
        "row_9")).span_id = none ∧
    (persistOutbox (OutboxService.create_event wTracingState "aaaaaaaaaaaaaaaa"
        "evt_9" 7 "order.created" "order.created"
        (EventData.userDeleted "user_abc" 7 none) (some "user_abc")
        "row_9")).parent_span_id = none := by
  decide

/-- C9: the event_id inside the payload envelope of a row minted by
OutboxService.create_event equals the row's event_id column, and both are the
freshly minted uuid, so deduplication keyed on the payload's event_id
identifies the row. -/
theorem C9_payload_event_id_matches_row (s : TracingState) (genSpan uuid : String)
    (now : Nat) (event_type topic : String) (event_data : EventData)
    (partition_key : Option String) (rowId : String) :
    (OutboxService.create_event s genSpan uuid now event_type topic event_data
        partition_key rowId).payload.event_id =
      (OutboxService.create_event s genSpan uuid now event_type topic event_data
        partition_key rowId).event_id ∧
    (OutboxService.create_event s genSpan uuid now event_type topic event_data
        partition_key rowId).event_id = uuid :=
  ⟨rfl, rfl⟩

/-- C10: a set_trace_context call whose context has parent_span_id None, made
after an earlier call stored a truthy parent and with no intervening clear,
leaves the stale parent in place: get_trace_context then reports the new
trace_id and span_id with the old parent_span_id. Moreover set_trace_context
never resets a stored parent to None - only clear_trace_context does. -/
theorem C10_stale_parent_span (s : TracingState) (c1 c2 : TraceContext)
    (g : String) :
    ((optStrTruthy c1.parent_span_id = true ∧ c2.parent_span_id = none ∧
        c2.trace_id ≠ "" ∧ c2.span_id ≠ "") →
      get_trace_context (set_trace_context c2 (set_trace_context c1 s)) g =
        some { trace_id := c2.trace_id, span_id := c2.span_id,
               parent_span_id := c1.parent_span_id }) ∧
    ((set_trace_context c2 s).parent_span_id_var = none →
      s.parent_span_id_var = none) ∧
    (clear_trace_context s).parent_span_id_var = none := by
  refine ⟨?_, ?_, rfl⟩
  · rintro ⟨h1, h2, h3, h4⟩
    have hc2 : optStrTruthy c2.parent_span_id = false := by rw [h2]; rfl
    simp [set_trace_context, get_trace_context, h1, hc2, h3, h4]
  · intro h
    simp only [set_trace_context] at h
    by_cases hp : optStrTruthy c2.parent_span_id = true
    · rw [if_pos hp] at h
      rw [h] at hp
      simp [optStrTruthy] at hp
    · rwa [if_neg hp] at h

/-- C1 (code evaluation at the failing input): the publish_event call of
handle_user_deleted passes the keyword trace_context, which the signature of
KafkaProducerClient.publish_event does not accept, so the call cannot bind.
Evaluated on a user with one pending order: no order.cancelled reaches the
bus, the order is not cancelled (its transaction is rolled back), and only the
cache delete happens. -/
theorem C1_publish_event_keyword_mismatch :
    python_call_kwargs_ok publish_event_params handle_user_deleted_publish_kwargs
      = false ∧
    handle_user_deleted [wOrderPending] "user_abc" 5 =
      ([wOrderPending],
       [CEffect.dbRollback, CEffect.redisDelete "user:user_abc"]) := by
  decide

/-- C6 counterexample: the user exists in the directory with status active,
yet an infrastructure failure on the cache read makes POST /api/v1/orders
answer 404 - the catch-all in validate_user converts the infra error into
None, the same value as user-not-found. -/
theorem C6_counterexample_infra_404 :
    wActiveUser.status = "active" ∧
    create_order_status_code (Except.error "redis connection refused")
      (Except.ok (some wActiveUser)) (Except.ok ()) = 404 :=
  ⟨rfl, rfl⟩

/-- C6 (amended): the endpoint answers 404 exactly when validate_user returns
None, and validate_user returns None exactly when the cache path errored (or
its record failed to parse), or the cached record is not active, or on a cache
miss the directory call errored, found nothing, or found a non-active user.
Infrastructure failures during validation therefore surface as 404, not 5xx. -/
theorem C6_amended_404_characterization (cache api : EnvResult (Option UserData))
    (w : EnvResult Unit) :
    (create_order_status_code cache api w = 404 ↔
      validate_user cache api w = none) ∧
    (validate_user cache api w = none ↔
      ((∃ m, cache = Except.error m) ∨
       (∃ u, cache = Except.ok (some u) ∧ u.status ≠ "active") ∨
       (cache = Except.ok none ∧
         ((∃ m, api = Except.error m) ∨ api = Except.ok none ∨
          (∃ u, api = Except.ok (some u) ∧ u.status ≠ "active"))))) := by
  constructor
  · unfold create_order_status_code
    cases h : validate_user cache api w <;> simp [h]
  · unfold validate_user fetch_from_user_service
    rcases cache with m | mc
    · simp
    · rcases mc with _ | u
      · rcases api with m | ma
        · simp
        · rcases ma with _ | u2
          · simp
          · by_cases hs : u2.status = "active" <;> cases w <;>
              simp [hs, Except.ok.injEq]
      · by_cases hs : u.status = "active" <;> simp [hs, Except.ok.injEq]

/-- C8: every order-status mutation performed by the lifecycle processor or
the consumer follows an edge of the state machine: process_pending_orders
writes confirmed only over pending, process_confirmed_orders writes shipped
only over confirmed, and the consumer's cancellation writes cancelled only
over pending or confirmed; any other row keeps its status, so no operation
skips a state. -/
theorem C8_status_mutations_follow_edges (db : List OrderRow) (now : Nat)
    (txOkP txOkC : String → Bool) (payHex trkHex : String → String)
    (user_id : String) :
    List.Forall₂ (fun r r' : OrderRow => r'.status = r.status ∨
        (r.status = "pending" ∧ r'.status = "confirmed"))
      db (process_pending_orders db now txOkP payHex) ∧
    List.Forall₂ (fun r r' : OrderRow => r'.status = r.status ∨
        (r.status = "confirmed" ∧ r'.status = "shipped"))
      db (process_confirmed_orders db now txOkC trkHex) ∧
    List.Forall₂ (fun r r' : OrderRow => r'.status = r.status ∨
        ((r.status = "pending" ∨ r.status = "confirmed") ∧
          r'.status = "cancelled"))
      db (handle_user_deleted db user_id now).1 := by
  refine ⟨forall₂_map_self _ _ _ ?_, forall₂_map_self _ _ _ ?_,
    forall₂_map_self _ _ _ ?_⟩
  · intro o _
    by_cases h : (pendingEligible now o && txOkP o.id) = true
    · have hp : o.status = "pending" := by
        have := h
        simp [pendingEligible] at this
        exact this.1.1
      exact Or.inr ⟨hp, by simp [h, confirmOrder]⟩
    · exact Or.inl (by simp [h])
  · intro o _
    by_cases h : (confirmedEligible now o && txOkC o.id) = true
    · have hp : o.status = "confirmed" := by
        have := h
        simp [confirmedEligible] at this
        exact this.1.1
      exact Or.inr ⟨hp, by simp [h, shipOrder]⟩
    · exact Or.inl (by simp [h])
  · intro o _
    by_cases h : (cancellable user_id o &&
        python_call_kwargs_ok publish_event_params
          handle_user_deleted_publish_kwargs) = true
    · have hp : o.status = "pending" ∨ o.status = "confirmed" := by
        have := h
        simp [cancellable] at this
        exact this.1.2
      exact Or.inr ⟨hp, by simp [h]⟩
    · exact Or.inl (by simp [h])

/-- C7 counterexample: a traceparent whose flags field is a single character
is accepted by from_traceparent_header (the source never checks the flags
length), while the claim requires none for a flags field that is not 2 hex
characters. -/
theorem C7_counterexample_short_flags_accepted :
    (TraceContext.from_traceparent_header
        "00-aaaaaaaaaaaaaaaaaaaaaaaaaaaaaaaa-bbbbbbbbbbbbbbbb-1"
        "cccccccccccccccc").isSome = true ∧
    ¬("1".length = 2) := by
  decide

/-- C7 (amended): from_traceparent_header returns none exactly when the
header does not split into four dash-separated fields, the version field
differs from 00, the trace_id field is not 32 characters or is the all-zero
string, the span_id field is not 16 characters or is the all-zero string, or
any of the three fields is rejected by Python int(field, 16) - which accepts
surrounding whitespace, a plus sign, an 0x prefix and underscore separators,
and imposes no length bound on the flags field. The function is total: every
input yields a context or none, never an error. -/
theorem C7_parse_none_iff_rejected (h sp : String) :
    TraceContext.from_traceparent_header h sp = none ↔
      traceparent_rejected h = true := by
  unfold TraceContext.from_traceparent_header traceparent_rejected
  generalize (splitOnDash h.data).map String.mk = L
  rcases L with _ | ⟨v, _ | ⟨tid, _ | ⟨psid, _ | ⟨fl, _ | ⟨x, t⟩⟩⟩⟩⟩
  · simp
  · simp
  · simp
  · simp
  · by_cases hv : v = "00" <;>
    by_cases h32 : tid.length = 32 <;>
    by_cases hz : tid = "00000000000000000000000000000000" <;>
    by_cases h16 : psid.length = 16 <;>
    by_cases hz2 : psid = "0000000000000000" <;>
    rcases htid : pyIntHex tid with _ | a <;>
    rcases hpsid : pyIntHex psid with _ | b <;>
    rcases hfl : pyIntHex fl with _ | c <;>
    simp [hv, h32, hz, h16, hz2, htid, hpsid, hfl]
  · simp

/-- C3: per consumed message, a present idempotency marker yields exactly the
duplicate metric and the offset commit and nothing else; a handler that
returns normally is followed by exactly one marker write with the configured
TTL and then exactly one offset commit, in that order; a handler that raises
leads to no marker write and no offset commit. The hypothesis states that the
dispatched handlers themselves never commit the offset nor write the marker,
which holds for all three handlers of the source. -/
theorem C3_consumer_idempotent_commit (event_id event_type topic : String)
    (alreadyProcessed : Bool) (handlerEffects : List CEffect)
    (handlerErr : Option String)
    (hsafe : ∀ eff ∈ handlerEffects,
      isCommitOffset eff = false ∧ marksProcessed event_id eff = false) :
    (alreadyProcessed = true →
      handle_message event_id event_type topic alreadyProcessed handlerEffects
          handlerErr =
        [CEffect.redisExists ("processed_event:" ++ event_id),
         CEffect.metricDuplicate topic event_type, CEffect.commitOffset]) ∧
    (alreadyProcessed = false → handlerErr = none →
      (handle_message event_id event_type topic alreadyProcessed handlerEffects
          handlerErr).filter
          (fun eff => isCommitOffset eff || marksProcessed event_id eff) =
        [CEffect.redisSet ("processed_event:" ++ event_id) "1"
           settings.PROCESSED_EVENT_TTL,
         CEffect.commitOffset]) ∧
    (∀ msg, alreadyProcessed = false → handlerErr = some msg →
      (handle_message event_id event_type topic alreadyProcessed handlerEffects
          handlerErr).countP isCommitOffset = 0 ∧
      (handle_message event_id event_type topic alreadyProcessed handlerEffects
          handlerErr).countP (marksProcessed event_id) = 0) := by
  have hfilter : handlerEffects.filter
      (fun eff => isCommitOffset eff || marksProcessed event_id eff) = [] := by
    rw [List.filter_eq_nil_iff]
    intro a ha
    simp [(hsafe a ha).1, (hsafe a ha).2]
  have hc1 : handlerEffects.countP isCommitOffset = 0 :=
    List.countP_eq_zero.mpr fun a ha => by simp [(hsafe a ha).1]
  have hc2 : handlerEffects.countP (marksProcessed event_id) = 0 :=
    List.countP_eq_zero.mpr fun a ha => by simp [(hsafe a ha).2]
  refine ⟨?_, ?_, ?_⟩
  · intro ha
    simp [handle_message, ha]
  · intro ha he
    subst he
    simp only [handle_message, ha, if_false, Bool.false_eq_true]
    rw [List.filter_append, List.filter_append, hfilter]
    simp [isCommitOffset, marksProcessed]
  · intro msg ha he
    subst he
    simp only [handle_message, ha, if_false, Bool.false_eq_true]
    constructor <;>
      · rw [List.countP_append, List.countP_append]
        simp [hc1, hc2, isCommitOffset, marksProcessed]

/-- C3 witness: a redelivered message (marker present) produces exactly the
duplicate metric and offset commit. -/
theorem C3_witness_duplicate_path :
    handle_message "evt_1" "user.created" "user.created" true [] none =
      [CEffect.redisExists ("processed_event:" ++ "evt_1"),
       CEffect.metricDuplicate "user.created" "user.created",
       CEffect.commitOffset] :=
  (C3_consumer_idempotent_commit "evt_1" "user.created" "user.created" true []
    none (by simp)).1 rfl

/-- What the relay's select returns: at most batch_size rows, all unpublished
and from the table, in ascending created_at order. -/
theorem runPending_spec (batch_size : Nat) (db : List OutboxEvent) :
    (runOutboxQuery (pendingEventsQuery batch_size) db).length ≤ batch_size ∧
    (∀ e ∈ runOutboxQuery (pendingEventsQuery batch_size) db,
      e.published = false ∧ e ∈ db) ∧
    List.Pairwise createdAtLe (runOutboxQuery (pendingEventsQuery batch_size) db) := by
  unfold runOutboxQuery pendingEventsQuery
  simp only [if_true]
  refine ⟨?_, ?_, ?_⟩
  · rw [List.length_take]
    exact min_le_left _ _
  · intro e he
    have h1 : e ∈ (db.filter fun x => !x.published).insertionSort createdAtLe :=
      (List.take_sublist _ _).subset he
    have h2 : e ∈ db.filter fun x => !x.published :=
      (List.perm_insertionSort createdAtLe _).subset h1
    have h3 := List.mem_filter.mp h2
    exact ⟨by simpa using h3.2, h3.1⟩
  · exact List.Pairwise.sublist (List.take_sublist _ _)
      (List.sorted_insertionSort createdAtLe _)

/-- C4 (code evaluation at the failing input): the select itself behaves as
the claim describes - FOR UPDATE SKIP LOCKED, only published=false rows, at
most batch_size, ascending created_at (runPending_spec states this in
general) - but processing the first selected row evaluates event.trace_id
outside the per-row try, the class declares no such attribute, and the whole
cycle aborts with AttributeError: no selected row is ever published or
committed with published=true. -/
theorem C4_relay_crashes_before_any_publish :
    (pendingEventsQuery 100).forUpdateSkipLocked = true ∧
    runOutboxQuery (pendingEventsQuery 100) [wRow1, wRow3] = [wRow1] ∧
    OutboxEvent.mapped_fields.contains "trace_id" = false ∧
    publish_pending_events 100 [wRow1, wRow3] =
      Except.error "AttributeError: trace_id" :=
  ⟨rfl, by decide, by decide, rfl⟩

/-- C5 (code evaluation at the failing input): with two selected rows
(ascending created_at puts row_2 first), the first iteration crashes with
AttributeError before any publish is attempted, so the rollback / attempts+1
/ last_error-truncation / critical-log bookkeeping of the claim is dead code
that never runs, and the crash aborts the whole batch: the remaining
selected row row_1 is never processed, contrary to the claim that a failing
row does not prevent the rest of the batch. -/
theorem C5_failure_bookkeeping_unreachable :
    runOutboxQuery (pendingEventsQuery 100) [wRow1, wRow2, wRow3] =
      [wRow2, wRow1] ∧
    OutboxEvent.getattr "trace_id" = Except.error "AttributeError: trace_id" ∧
    publish_pending_events 100 [wRow1, wRow2, wRow3] =
      Except.error "AttributeError: trace_id" :=
  ⟨by decide, rfl, rfl⟩
